import Mathlib

/-!
Verification of the CodeSync client reconciliation layer
(src/Frontend/src/pages/Room.tsx): a shallow embedding of the
Monaco-backed editor state, the WebSocket message handler
(STATE / PATCH / PARTICIPANT_LEFT / CURSOR dispatch), the selection
clamping performed when a PATCH replaces the document, the remote
cursor decoration bookkeeping, the debounced cursor sender, and the
reconnection state machine with linear backoff.
-/

/-! ### Document model (Monaco text model)

Monaco exposes the buffer as 1-indexed lines; `getLineCount` is the
number of lines (a document always has at least one line) and
`getLineMaxColumn line` is the length of that line plus one.
We split the buffer on newline characters to recover the lines. -/

/-- Split a character list into lines at newline characters.  The result
is never empty: an empty document is one empty line, matching Monaco. -/
def splitLines : List Char → List (List Char)
  | [] => [[]]
  | c :: rest =>
    let r := splitLines rest
    if c = '\n' then [] :: r
    else
      match r with
      | [] => [[c]]
      | h :: t => (c :: h) :: t

/-- The lines of a document string. -/
def docLines (s : String) : List (List Char) := splitLines s.data

/-- Monaco model.getLineCount. -/
def getLineCount (s : String) : Nat := (docLines s).length

/-- Monaco model.getLineContent for a 1-indexed line number. -/
def getLineContent (s : String) (line : Nat) : List Char :=
  (docLines s).getD (line - 1) []

/-- Monaco model.getLineMaxColumn: line length plus one. -/
def getLineMaxColumn (s : String) (line : Nat) : Nat :=
  (getLineContent s line).length + 1

/-! ### Cursor and selection data (Room.tsx interfaces) -/

/-- A caret position, as in the CursorPosition interface. -/
structure CursorPosition where
  lineNumber : Nat
  column : Nat
deriving Repr, DecidableEq

/-- A selection range, as in the Selection interface. -/
structure Selection where
  startLineNumber : Nat
  startColumn : Nat
  endLineNumber : Nat
  endColumn : Nat
deriving Repr, DecidableEq

/-- Per-remote-client decoration state, as in the RemoteDecoration
interface: decoration ids plus an optional content widget (modelled by
its widget id). -/
structure RemoteDecoration where
  ids : List String
  widget : Option String
deriving Repr, DecidableEq

/-! ### WebSocket frames -/

/-- The JSON frames the client sends and receives, discriminated by
their type field.  Fields that may be absent in the JSON are Options. -/
inductive Frame where
  | state (code : Option String) (participants : Option Nat)
  | patch (clientId : String) (code : Option String)
  | participantJoined (clientId : String) (participantCount : Nat)
  | participantLeft (clientId : String) (participantCount : Nat)
  | cursor (clientId : String) (position : Option CursorPosition)
      (selection : Option Selection)
  | edit (code : String) (clientId : String)
  | error (message : String)
deriving Repr, DecidableEq

/-- Recognise an outbound EDIT frame. -/
def isEditFrame : Frame → Bool
  | .edit _ _ => true
  | _ => false

/-! ### Editor and client state -/

/-- The mounted Monaco editor: buffer text, current selection, the
decoration ids and content widgets currently installed, and a counter
for allocating fresh decoration ids. -/
structure EditorState where
  buffer : String
  selection : Option Selection
  decosInEditor : List String
  widgetsInEditor : List String
  nextId : Nat
deriving Repr, DecidableEq

/-- The client reconciliation state: the editor, the
isLocalChangeRef echo-suppression flag, the remoteDecorationsRef table
keyed by remote client id, the participant count, and our own client
id from session storage. -/
structure ClientState where
  editor : EditorState
  isLocalChange : Bool
  remoteDecorations : List (String × RemoteDecoration)
  participantCount : Nat
  clientId : String
deriving Repr, DecidableEq

/-- Look up a client id in the remote decoration table. -/
def lookupKey (m : List (String × RemoteDecoration)) (k : String) :
    Option RemoteDecoration :=
  (m.find? (fun p => p.1 == k)).map Prod.snd

/-- Delete a client id from the remote decoration table. -/
def eraseKey (m : List (String × RemoteDecoration)) (k : String) :
    List (String × RemoteDecoration) :=
  m.filter (fun p => p.1 != k)

/-- Insert or replace an entry in the remote decoration table. -/
def insertKey (m : List (String × RemoteDecoration)) (k : String)
    (v : RemoteDecoration) : List (String × RemoteDecoration) :=
  (k, v) :: eraseKey m k

/-! ### Content change handler (handleEditorMount, onDidChangeModelContent)

Monaco fires the content-change event synchronously when the model is
mutated.  The handler returns immediately when isLocalChangeRef is set;
otherwise it (after the debounce window) sends an EDIT frame carrying
the current buffer and our client id. -/

/-- The onDidChangeModelContent handler: the frames it sends in
response to one content-change event. -/
def onContentChange (st : ClientState) : List Frame :=
  if st.isLocalChange then []
  else [Frame.edit st.editor.buffer st.clientId]

/-- Programmatically set the model value (pushEditOperations over the
full range, or setValue).  The change event fires synchronously, so the
handler runs against the updated state. -/
def applyValueChange (st : ClientState) (newCode : String) :
    ClientState × List Frame :=
  let st1 := { st with editor := { st.editor with buffer := newCode } }
  (st1, onContentChange st1)

/-! ### Selection clamping on PATCH (Room.tsx lines 330-353) -/

/-- clampLine from the PATCH case: clamp a line number into
[1, lineCount]. -/
def clampLine (lineCount l : Nat) : Nat := min (max 1 l) lineCount

/-- clampCol from the PATCH case: clamp a column into
[1, getLineMaxColumn line]. -/
def clampCol (doc : String) (line col : Nat) : Nat :=
  min (max 1 col) (getLineMaxColumn doc line)

/-- Restore a prior selection against a freshly installed document,
clamping each endpoint as the PATCH handler does: lines first, then
columns against the clamped lines. -/
def restoreSelection (doc : String) (prev : Selection) : Selection :=
  let lineCount := getLineCount doc
  let startLine := clampLine lineCount prev.startLineNumber
  let endLine := clampLine lineCount prev.endLineNumber
  let startCol := clampCol doc startLine prev.startColumn
  let endCol := clampCol doc endLine prev.endColumn
  { startLineNumber := startLine, startColumn := startCol,
    endLineNumber := endLine, endColumn := endCol }

/-! ### Frame handlers (handleWebSocketMessage) -/

/-- JavaScript (x || "") coercion on an optional string: an absent or
empty string becomes the empty string. -/
def jsOrEmptyStr : Option String → String
  | none => ""
  | some c => if c = "" then "" else c

/-- The STATE case: set the model value with the echo flag held, then
update the participant count when the field is present. -/
def handleState (st : ClientState) (mcode : Option String)
    (mparts : Option Nat) : ClientState × List Frame :=
  let st1 := { st with isLocalChange := true }
  let res := applyValueChange st1 (jsOrEmptyStr mcode)
  let st2 := { res.1 with isLocalChange := false }
  let st3 :=
    match mparts with
    | some p => { st2 with participantCount := p }
    | none => st2
  (st3, res.2)

/-- The PATCH case: ignore our own echo, ignore frames without a code
field, otherwise replace the whole buffer under the echo flag and
restore the previous selection clamped into the new document. -/
def handlePatch (st : ClientState) (pid : String)
    (mcode : Option String) : ClientState × List Frame :=
  if pid = st.clientId then (st, [])
  else
    match mcode with
    | none => (st, [])
    | some newCode =>
      let prevSelection := st.editor.selection
      let st1 := { st with isLocalChange := true }
      let res := applyValueChange st1 newCode
      let st2 :=
        match prevSelection with
        | some sel =>
          { res.1 with
            editor := { res.1.editor with
              selection := some (restoreSelection newCode sel) } }
        | none => res.1
      ({ st2 with isLocalChange := false }, res.2)

/-- removeRemoteCursor: when a decoration entry exists for the client,
clear its decorations from the editor, remove its widget, and delete
the table entry. -/
def removeRemoteCursor (st : ClientState) (remoteClientId : String) :
    ClientState :=
  match lookupKey st.remoteDecorations remoteClientId with
  | none => st
  | some entry =>
    let ed := st.editor
    let ed1 := { ed with
      decosInEditor := ed.decosInEditor.filter
        (fun i => !(entry.ids.contains i)) }
    let ed2 :=
      match entry.widget with
      | some w =>
        { ed1 with
          widgetsInEditor := ed1.widgetsInEditor.filter (fun x => x != w) }
      | none => ed1
    { st with
      editor := ed2,
      remoteDecorations := eraseKey st.remoteDecorations remoteClientId }

/-- deltaDecorations: remove the old decoration ids from the editor and
install numNew fresh ones, returning the fresh ids. -/
def deltaDecorations (ed : EditorState) (oldIds : List String)
    (numNew : Nat) : EditorState × List String :=
  let newIds := (List.range numNew).map
    (fun i => "deco" ++ toString (ed.nextId + i))
  ({ ed with
    decosInEditor :=
      ed.decosInEditor.filter (fun i => !(oldIds.contains i)) ++ newIds,
    nextId := ed.nextId + numNew }, newIds)

/-- Strip non-alphanumeric characters from a client id, as the widget
id construction does. -/
def idSafe (s : String) : String := String.mk (s.data.filter Char.isAlphanum)

/-- updateRemoteCursor: refresh the selection highlight decorations and
the caret content widget for a remote client. -/
def updateRemoteCursor (st : ClientState) (remoteClientId : String)
    (position : Option CursorPosition) (selection : Option Selection) :
    ClientState :=
  if remoteClientId = st.clientId then st
  else
    let wantsDeco : Bool :=
      match selection with
      | some sel =>
        (sel.startLineNumber != sel.endLineNumber) ||
          (sel.startColumn != sel.endColumn)
      | none => false
    let entry :=
      (lookupKey st.remoteDecorations remoteClientId).getD
        { ids := [], widget := none }
    let res := deltaDecorations st.editor entry.ids (if wantsDeco then 1 else 0)
    let ed1 := res.1
    let ed2 :=
      match entry.widget with
      | some w =>
        { ed1 with
          widgetsInEditor := ed1.widgetsInEditor.filter (fun x => x != w) }
      | none => ed1
    match position with
    | some _ =>
      let wid := "remote-cursor-" ++ idSafe remoteClientId
      { st with
        editor := { ed2 with widgetsInEditor := ed2.widgetsInEditor ++ [wid] },
        remoteDecorations := insertKey st.remoteDecorations remoteClientId
          { ids := res.2, widget := some wid } }
    | none =>
      { st with
        editor := ed2,
        remoteDecorations := insertKey st.remoteDecorations remoteClientId
          { ids := res.2, widget := none } }

/-- handleWebSocketMessage: dispatch one inbound frame, returning the
new client state and the frames sent in response. -/
def handleWebSocketMessage (st : ClientState) (msg : Frame) :
    ClientState × List Frame :=
  match msg with
  | .state mcode mparts => handleState st mcode mparts
  | .patch pid mcode => handlePatch st pid mcode
  | .participantJoined _ cnt => ({ st with participantCount := cnt }, [])
  | .participantLeft pid cnt =>
    (removeRemoteCursor { st with participantCount := cnt } pid, [])
  | .cursor pid pos sel =>
    if pid = st.clientId then (st, [])
    else (updateRemoteCursor st pid pos sel, [])
  | .edit _ _ => (st, [])
  | .error _ => (st, [])

/-- Process a sequence of inbound frames in order, collecting every
frame sent in response. -/
def processFrames (st : ClientState) : List Frame → ClientState × List Frame
  | [] => (st, [])
  | m :: rest =>
    let r1 := handleWebSocketMessage st m
    let r2 := processFrames r1.1 rest
    (r2.1, r1.2 ++ r2.2)

/-- Build a list of inbound PATCH frames from (clientId, code) pairs. -/
def patchFrames (ps : List (String × Option String)) : List Frame :=
  ps.map (fun p => Frame.patch p.1 p.2)

/-! ### Debounced cursor sender (handleEditorMount, sendCursorPosition) -/

/-- lastSentPositionRef: the line and column of the last CURSOR frame
sent, initialised to (0, 0). -/
structure CursorSendState where
  lastLine : Nat
  lastCol : Nat
deriving Repr, DecidableEq

/-- The debounced body of sendCursorPosition: suppress the frame when
the caret position exactly equals the last sent position; otherwise
record the new position and emit a CURSOR frame (a null position is
always sent and does not update the record). -/
def sendCursorPosition (own : String) (ls : CursorSendState)
    (pos : Option CursorPosition) (sel : Option Selection) :
    CursorSendState × Option Frame :=
  match pos with
  | some p =>
    if ls.lastLine = p.lineNumber ∧ ls.lastCol = p.column then (ls, none)
    else
      ({ lastLine := p.lineNumber, lastCol := p.column },
        some (Frame.cursor own (some p) sel))
  | none => (ls, some (Frame.cursor own none sel))

/-! ### Reconnection state machine (connectWebSocket, handleLeaveRoom) -/

/-- The connection status shown in the UI. -/
inductive ConnectionStatus where
  | connecting
  | connected
  | disconnected
deriving Repr, DecidableEq

/-- The client connection state: status, the manualDisconnectRef flag
and the reconnectAttemptsRef counter. -/
structure ConnState where
  status : ConnectionStatus
  manualDisconnect : Bool
  reconnectAttempts : Nat
deriving Repr, DecidableEq

/-- MAX_RECONNECT_ATTEMPTS from Room.tsx. -/
def MAX_RECONNECT_ATTEMPTS : Nat := 5

/-- The base reconnect delay in milliseconds (the 2000 in
setTimeout(connectWebSocket, 2000 * attempts)). -/
def RECONNECT_BASE_DELAY : Nat := 2000

/-- The externally visible effects of one ws.onclose invocation: the
delay of the reconnect timer it scheduled, if any, and whether it
surfaced the terminal connection-lost error. -/
structure CloseEffect where
  scheduledDelay : Option Nat
  terminalError : Bool
deriving Repr, DecidableEq

/-- ws.onclose: mark disconnected; bail out on manual disconnect;
otherwise, below the attempt cap, increment the counter and schedule a
reconnect after 2000 * attempts ms, and at the cap surface the terminal
connection-lost error. -/
def wsOnClose (st : ConnState) : ConnState × CloseEffect :=
  let st0 := { st with status := ConnectionStatus.disconnected }
  if st0.manualDisconnect then
    (st0, { scheduledDelay := none, terminalError := false })
  else if st0.reconnectAttempts < MAX_RECONNECT_ATTEMPTS then
    let st1 := { st0 with reconnectAttempts := st0.reconnectAttempts + 1 }
    (st1, { scheduledDelay := some (RECONNECT_BASE_DELAY * st1.reconnectAttempts),
            terminalError := false })
  else
    (st0, { scheduledDelay := none, terminalError := true })

/-- ws.onopen: mark connected and reset the reconnect attempt counter. -/
def wsOnOpen (st : ConnState) : ConnState :=
  { st with status := ConnectionStatus.connected, reconnectAttempts := 0 }

/-- The confirmed path of handleLeaveRoom: set the manual-disconnect
flag (the socket close that follows is a separate onclose event). -/
def handleLeaveRoom (st : ConnState) : ConnState :=
  { st with manualDisconnect := true }

/-- connectWebSocket entry: mark connecting. -/
def connectStart (st : ConnState) : ConnState :=
  { st with status := ConnectionStatus.connecting }

/-- The connection state when the Room component mounts. -/
def initialConnState : ConnState :=
  { status := ConnectionStatus.connecting, manualDisconnect := false,
    reconnectAttempts := 0 }

/-- The events that drive the connection state. -/
inductive ConnEvent where
  | start
  | opened
  | closed
  | leave
deriving Repr, DecidableEq

/-- One step of the connection state machine. -/
def connStep (st : ConnState) : ConnEvent → ConnState
  | .start => connectStart st
  | .opened => wsOnOpen st
  | .closed => (wsOnClose st).1
  | .leave => handleLeaveRoom st

/-- Iterate ws.onclose n times, keeping only the state. -/
def iterateClose (st : ConnState) : Nat → ConnState
  | 0 => st
  | n + 1 => iterateClose (wsOnClose st).1 n

/-- The reconnect delays scheduled by n consecutive ws.onclose events. -/
def closeDelays (st : ConnState) : Nat → List (Option Nat)
  | 0 => []
  | n + 1 => (wsOnClose st).2.scheduledDelay :: closeDelays (wsOnClose st).1 n

/-! ### Helper lemmas -/

/-- A document always splits into at least one line. -/
theorem splitLines_length_pos (cs : List Char) : 0 < (splitLines cs).length := by
  induction cs with
  | nil => simp [splitLines]
  | cons c rest ih =>
    rw [splitLines]
    split
    · simp
    · split
      · simp
      · simp

/-- Monaco line count is at least one. -/
theorem getLineCount_pos (s : String) : 1 ≤ getLineCount s :=
  splitLines_length_pos s.data

/-! ### Claim theorems -/

/-- Claim C3: for every prior selection and every new document
installed by a PATCH, the clamped selection is in-bounds of the new
document: each endpoint line lies in [1, lineCount] and each endpoint
column lies in [1, maxColumn of its clamped line]. -/
theorem restored_selection_in_bounds (doc : String) (prev : Selection) :
    1 ≤ (restoreSelection doc prev).startLineNumber ∧
    (restoreSelection doc prev).startLineNumber ≤ getLineCount doc ∧
    1 ≤ (restoreSelection doc prev).startColumn ∧
    (restoreSelection doc prev).startColumn ≤
      getLineMaxColumn doc (restoreSelection doc prev).startLineNumber ∧
    1 ≤ (restoreSelection doc prev).endLineNumber ∧
    (restoreSelection doc prev).endLineNumber ≤ getLineCount doc ∧
    1 ≤ (restoreSelection doc prev).endColumn ∧
    (restoreSelection doc prev).endColumn ≤
      getLineMaxColumn doc (restoreSelection doc prev).endLineNumber := by
  have hlc : 1 ≤ getLineCount doc := getLineCount_pos doc
  simp only [restoreSelection, clampLine, clampCol, getLineMaxColumn]
  omega

/-- Claim C7: the debounced cursor sender emits no CURSOR frame exactly
when the caret position equals the last sent line and column; any
differing position, and a null position, produces a frame. -/
theorem cursor_send_suppressed_iff_unchanged (own : String)
    (ls : CursorSendState) (pos : Option CursorPosition)
    (sel : Option Selection) :
    (sendCursorPosition own ls pos sel).2 = none ↔
      pos = some { lineNumber := ls.lastLine, column := ls.lastCol } := by
  cases pos with
  | none => simp [sendCursorPosition]
  | some p =>
    cases p with
    | mk pl pc =>
      simp only [sendCursorPosition]
      split
      · rename_i h
        simp only [Option.some.injEq, CursorPosition.mk.injEq]
        exact iff_of_true trivial ⟨h.1.symm, h.2.symm⟩
      · rename_i h
        simp only [Option.some.injEq, CursorPosition.mk.injEq]
        exact iff_of_false (by simp) (fun hc => h ⟨hc.1.symm, hc.2.symm⟩)

/-- Claim C9: an inbound PATCH frame whose code field is absent is a
complete no-op: the client state (buffer, selection, echo flag) is
returned unchanged and nothing is sent. -/
theorem patch_without_code_is_noop (st : ClientState) (pid : String) :
    handleWebSocketMessage st (Frame.patch pid none) = (st, []) := by
  simp only [handleWebSocketMessage, handlePatch]
  split <;> rfl

/-- The PATCH handler never sends anything: the echo flag is held while
the model value is replaced, so the synchronous content-change handler
returns without emitting a frame. -/
theorem handlePatch_sends_nothing (st : ClientState) (pid : String)
    (mc : Option String) : (handlePatch st pid mc).2 = [] := by
  simp only [handlePatch]
  split
  · rfl
  · cases mc with
    | none => rfl
    | some c =>
      simp only [applyValueChange, onContentChange]
      cases st.editor.selection <;> simp

/-- Claim C1: processing any sequence of inbound PATCH frames emits no
outbound EDIT frame: the echo-suppression flag is set around each
programmatic buffer mutation, so the content-change handler sends
nothing, for any number of frames and any starting state. -/
theorem patch_frames_emit_no_edit (st : ClientState)
    (ps : List (String × Option String)) :
    ((processFrames st (patchFrames ps)).2).filter isEditFrame = [] := by
  induction ps generalizing st with
  | nil => rfl
  | cons p rest ih =>
    simp only [patchFrames, List.map_cons, processFrames,
      handleWebSocketMessage, List.filter_append]
    rw [handlePatch_sends_nothing]
    simpa [patchFrames] using ih (handlePatch st p.1 p.2).1

/-- Claim C2: an inbound PATCH carrying a document replaces the local
buffer wholesale with that document unless it carries our own client
id, and a PATCH carrying our own client id is ignored entirely: the
state is unchanged and nothing is sent. -/
theorem patch_replaces_or_ignores (st : ClientState) (pid : String)
    (c : String) (mcode : Option String) :
    ((handleWebSocketMessage st (Frame.patch pid (some c))).1.editor.buffer =
      if pid = st.clientId then st.editor.buffer else c) ∧
    (pid = st.clientId →
      handleWebSocketMessage st (Frame.patch pid mcode) = (st, [])) := by
  constructor
  · simp only [handleWebSocketMessage, handlePatch]
    split
    · rename_i h
      simp [h]
    · rename_i h
      cases hsel : st.editor.selection <;>
        simp [applyValueChange, hsel, h]
  · intro h
    simp [handleWebSocketMessage, handlePatch, h]

/-- A concrete editor state used to instantiate the claim theorems. -/
def sampleEditor : EditorState :=
  { buffer := "print(1)", selection := none, decosInEditor := [],
    widgetsInEditor := [], nextId := 0 }

/-- A concrete client state (client id alice) used to instantiate the
claim theorems. -/
def sampleClient : ClientState :=
  { editor := sampleEditor, isLocalChange := false,
    remoteDecorations := [], participantCount := 2, clientId := "alice" }

/-- Witness for claim C2 at a concrete state: a PATCH from bob replaces
the buffer, and a PATCH from alice herself is ignored. -/
theorem patch_replaces_or_ignores_witness :
    ((handleWebSocketMessage sampleClient
        (Frame.patch "bob" (some "x=1"))).1.editor.buffer =
      if "bob" = sampleClient.clientId then sampleClient.editor.buffer
      else "x=1") ∧
    handleWebSocketMessage sampleClient (Frame.patch "alice" (some "y=2")) =
      (sampleClient, []) :=
  ⟨(patch_replaces_or_ignores sampleClient "bob" "x=1" none).1,
    (patch_replaces_or_ignores sampleClient "alice" "y=2" (some "y=2")).2 rfl⟩

/-- Claim C10: an inbound STATE frame whose code field is absent or the
empty string installs the empty string in the buffer (the JavaScript
falsy coercion), regardless of the previous content, and nothing is
broadcast. -/
theorem state_falsy_code_clears_buffer (st : ClientState)
    (mcode : Option String) (mparts : Option Nat)
    (h : mcode = none ∨ mcode = some "") :
    (handleWebSocketMessage st (Frame.state mcode mparts)).1.editor.buffer
      = "" ∧
    (handleWebSocketMessage st (Frame.state mcode mparts)).2 = [] := by
  rcases h with h | h <;> subst h <;> cases mparts <;>
    simp [handleWebSocketMessage, handleState, applyValueChange,
      onContentChange, jsOrEmptyStr]

/-- Witness for claim C10 at a concrete state: a STATE frame with no
code field clears a nonempty buffer and sends nothing. -/
theorem state_falsy_code_clears_buffer_witness :
    (handleWebSocketMessage sampleClient
        (Frame.state none (some 2))).1.editor.buffer = "" ∧
    (handleWebSocketMessage sampleClient (Frame.state none (some 2))).2
      = [] :=
  state_falsy_code_clears_buffer sampleClient none (some 2) (Or.inl rfl)

/-- ws.onclose always leaves the status disconnected. -/
theorem wsOnClose_status (st : ConnState) :
    (wsOnClose st).1.status = ConnectionStatus.disconnected := by
  simp only [wsOnClose]
  split
  · rfl
  · split <;> rfl

/-- ws.onclose under the manual-disconnect flag: it marks the status
disconnected, schedules nothing, surfaces nothing, and leaves both the
flag and the attempt counter alone. -/
theorem wsOnClose_manual (st : ConnState) (h : st.manualDisconnect = true) :
    wsOnClose st =
      ({ st with status := ConnectionStatus.disconnected },
        { scheduledDelay := none, terminalError := false }) := by
  simp [wsOnClose, h]

/-- ws.onclose below the attempt cap: the counter advances by one and a
reconnect is scheduled after 2000 ms times the new counter. -/
theorem wsOnClose_active (st : ConnState) (hm : st.manualDisconnect = false)
    (hlt : st.reconnectAttempts < MAX_RECONNECT_ATTEMPTS) :
    wsOnClose st =
      ({ st with
         status := ConnectionStatus.disconnected,
         reconnectAttempts := st.reconnectAttempts + 1 },
        { scheduledDelay :=
            some (RECONNECT_BASE_DELAY * (st.reconnectAttempts + 1)),
          terminalError := false }) := by
  simp [wsOnClose, hm, hlt]

/-- ws.onclose at the attempt cap: nothing is scheduled and the
terminal connection-lost error is surfaced. -/
theorem wsOnClose_capped (st : ConnState) (hm : st.manualDisconnect = false)
    (hge : ¬ st.reconnectAttempts < MAX_RECONNECT_ATTEMPTS) :
    wsOnClose st =
      ({ st with status := ConnectionStatus.disconnected },
        { scheduledDelay := none, terminalError := true }) := by
  simp [wsOnClose, hm, hge]

/-- Claim C4: within one disconnected episode the scheduled reconnect
delay is 2000 ms times the new attempt number, consecutive scheduled
delays never decrease, and once the five-attempt cap is exhausted no
reconnect is scheduled and the terminal connection-lost error is
surfaced. -/
theorem reconnect_backoff_monotone_and_capped (st : ConnState)
    (hm : st.manualDisconnect = false) :
    (st.reconnectAttempts < MAX_RECONNECT_ATTEMPTS →
      (wsOnClose st).2.scheduledDelay =
        some (RECONNECT_BASE_DELAY * (st.reconnectAttempts + 1))) ∧
    (∀ d1 d2, (wsOnClose st).2.scheduledDelay = some d1 →
      (wsOnClose (wsOnClose st).1).2.scheduledDelay = some d2 → d1 ≤ d2) ∧
    (MAX_RECONNECT_ATTEMPTS ≤ st.reconnectAttempts →
      (wsOnClose st).2.scheduledDelay = none ∧
      (wsOnClose st).2.terminalError = true) := by
  refine ⟨?_, ?_, ?_⟩
  · intro hlt
    rw [wsOnClose_active st hm hlt]
  · intro d1 d2 h1 h2
    by_cases hlt : st.reconnectAttempts < MAX_RECONNECT_ATTEMPTS
    · rw [wsOnClose_active st hm hlt] at h1 h2
      simp only [Option.some.injEq] at h1
      have h2' : (wsOnClose
          { st with
            status := ConnectionStatus.disconnected,
            reconnectAttempts := st.reconnectAttempts + 1 }).2.scheduledDelay
          = some d2 := h2
      by_cases hlt2 : st.reconnectAttempts + 1 < MAX_RECONNECT_ATTEMPTS
      · rw [wsOnClose_active
            { st with
              status := ConnectionStatus.disconnected,
              reconnectAttempts := st.reconnectAttempts + 1 } hm hlt2] at h2'
        simp only [Option.some.injEq] at h2'
        subst h1
        subst h2'
        have hbase : RECONNECT_BASE_DELAY = 2000 := rfl
        rw [hbase]
        omega
      · rw [wsOnClose_capped
            { st with
              status := ConnectionStatus.disconnected,
              reconnectAttempts := st.reconnectAttempts + 1 } hm hlt2] at h2'
        cases h2'
    · rw [wsOnClose_capped st hm hlt] at h1
      cases h1
  · intro hge
    have hlt : ¬ st.reconnectAttempts < MAX_RECONNECT_ATTEMPTS := by omega
    rw [wsOnClose_capped st hm hlt]
    exact ⟨rfl, rfl⟩

/-- A fresh connected state with no reconnect attempts used. -/
def sampleConnFresh : ConnState :=
  { status := ConnectionStatus.connected, manualDisconnect := false,
    reconnectAttempts := 0 }

/-- A state whose reconnect attempt budget is exhausted. -/
def sampleConnSpent : ConnState :=
  { status := ConnectionStatus.disconnected, manualDisconnect := false,
    reconnectAttempts := 5 }

/-- Witness for claim C4 at concrete states: the first close of a
fresh episode schedules 2000 ms, the next schedules 4000 ms, and at
five attempts nothing is scheduled and the terminal error shows. -/
theorem reconnect_backoff_monotone_and_capped_witness :
    (wsOnClose sampleConnFresh).2.scheduledDelay = some 2000 ∧
    (2000 : Nat) ≤ 4000 ∧
    (wsOnClose sampleConnSpent).2.scheduledDelay = none ∧
    (wsOnClose sampleConnSpent).2.terminalError = true := by
  have hfresh := reconnect_backoff_monotone_and_capped sampleConnFresh rfl
  have hmono := hfresh.2.1 2000 4000 (by rfl) (by rfl)
  have hspent :=
    (reconnect_backoff_monotone_and_capped sampleConnSpent rfl).2.2
      (by decide)
  exact ⟨hfresh.1 (by decide), hmono, hspent.1, hspent.2⟩

/-- Claim C5: once handleLeaveRoom has set the manual-disconnect flag,
any number of subsequent socket closes schedules no reconnect timer at
all and never touches the attempt counter. -/
theorem manual_disconnect_suppresses_reconnect (st : ConnState) (n : Nat) :
    closeDelays (handleLeaveRoom st) n = List.replicate n none ∧
    (iterateClose (handleLeaveRoom st) n).reconnectAttempts =
      st.reconnectAttempts := by
  have aux : ∀ (m : Nat) (s : ConnState), s.manualDisconnect = true →
      closeDelays s m = List.replicate m none ∧
      (iterateClose s m).reconnectAttempts = s.reconnectAttempts := by
    intro m
    induction m with
    | zero => exact fun s _ => ⟨rfl, rfl⟩
    | succ k ih =>
      intro s hs
      have hc := wsOnClose_manual s hs
      obtain ⟨ihA, ihB⟩ :=
        ih { s with status := ConnectionStatus.disconnected } hs
      refine ⟨?_, ?_⟩
      · simp [closeDelays, hc, ihA, List.replicate]
      · simp [iterateClose, hc, ihB]
  exact aux n (handleLeaveRoom st) rfl

/-- Claim C8: the invariant that a connected client has a zero attempt
counter holds initially and is preserved by every event (only ws.onopen
produces the connected status and it resets the counter), and the first
close after a successful open schedules the full fresh backoff of
2000 ms. -/
theorem connected_implies_zero_attempts_inv (st : ConnState)
    (ev : ConnEvent)
    (hinv : st.status = ConnectionStatus.connected →
      st.reconnectAttempts = 0) :
    ((connStep st ev).status = ConnectionStatus.connected →
      (connStep st ev).reconnectAttempts = 0) ∧
    (initialConnState.status = ConnectionStatus.connected →
      initialConnState.reconnectAttempts = 0) ∧
    (wsOnOpen st).reconnectAttempts = 0 ∧
    (st.manualDisconnect = false →
      (wsOnClose (wsOnOpen st)).2.scheduledDelay =
        some RECONNECT_BASE_DELAY) := by
  refine ⟨?_, fun _ => rfl, rfl, ?_⟩
  · cases ev with
    | start => intro hc; exact absurd hc (by simp [connStep, connectStart])
    | opened => intro _; rfl
    | closed =>
      intro hc
      rw [connStep, wsOnClose_status st] at hc
      cases hc
    | leave => exact hinv
  · intro hm
    simp [wsOnClose, wsOnOpen, hm, MAX_RECONNECT_ATTEMPTS,
      RECONNECT_BASE_DELAY]

/-- Witness for claim C8: opening from the initial state yields a zero
counter while connected, and the close that follows schedules 2000 ms. -/
theorem connected_implies_zero_attempts_inv_witness :
    (connStep initialConnState ConnEvent.opened).reconnectAttempts = 0 ∧
    (wsOnClose (wsOnOpen initialConnState)).2.scheduledDelay =
      some RECONNECT_BASE_DELAY :=
  ⟨(connected_implies_zero_attempts_inv initialConnState ConnEvent.opened
      (fun _ => rfl)).1 rfl,
    (connected_implies_zero_attempts_inv initialConnState ConnEvent.opened
      (fun _ => rfl)).2.2.2 rfl⟩

/-- Looking up a key after erasing it from the decoration table finds
nothing. -/
theorem lookupKey_eraseKey (m : List (String × RemoteDecoration))
    (k : String) : lookupKey (eraseKey m k) k = none := by
  induction m with
  | nil => rfl
  | cons a rest ih =>
    by_cases h : a.1 = k
    · simp only [eraseKey, List.filter_cons, h] at ih ⊢
      simp only [bne_self_eq_false, Bool.false_eq_true, if_false]
      exact ih
    · simp only [eraseKey, lookupKey, List.filter_cons, List.find?_cons,
        h] at ih ⊢
      simp [h, ih]

/-- Claim C6: after processing a PARTICIPANT_LEFT frame for a client,
the remote-decoration table has no entry for that client, its selection
decoration ids are gone from the editor, and its caret widget is gone
from the editor. -/
theorem participant_left_clears_decorations (st : ClientState)
    (pid : String) (cnt : Nat) :
    lookupKey ((handleWebSocketMessage st
        (Frame.participantLeft pid cnt)).1).remoteDecorations pid = none ∧
    (∀ entry, lookupKey st.remoteDecorations pid = some entry →
      (∀ i ∈ entry.ids,
        i ∉ ((handleWebSocketMessage st
          (Frame.participantLeft pid cnt)).1).editor.decosInEditor) ∧
      (∀ w, entry.widget = some w →
        w ∉ ((handleWebSocketMessage st
          (Frame.participantLeft pid cnt)).1).editor.widgetsInEditor)) := by
  simp only [handleWebSocketMessage, removeRemoteCursor]
  cases hl : lookupKey st.remoteDecorations pid with
  | none =>
    refine ⟨hl, ?_⟩
    intro entry he
    exact Option.noConfusion he
  | some entry =>
    refine ⟨lookupKey_eraseKey st.remoteDecorations pid, ?_⟩
    intro entry0 he
    cases he
    obtain ⟨ids, wopt⟩ := entry
    cases wopt with
    | some w1 =>
      constructor
      · intro i hi hmem
        simp only [List.mem_filter] at hmem
        simp [hi] at hmem
      · intro w0 hw hmem
        cases hw
        simp only [List.mem_filter] at hmem
        simp at hmem
    | none =>
      constructor
      · intro i hi hmem
        simp only [List.mem_filter] at hmem
        simp [hi] at hmem
      · intro w0 hw
        exact Option.noConfusion hw

/-- A concrete decoration entry: one selection decoration id and a
caret widget. -/
def sampleDecoEntry : RemoteDecoration := { ids := ["d0"], widget := some "w0" }

/-- A concrete client state in which remote client bob currently has a
selection decoration and a caret widget installed. -/
def sampleClientWithDeco : ClientState :=
  { editor :=
      { buffer := "x=1",
        selection := none,
        decosInEditor := ["d0", "dOther"],
        widgetsInEditor := ["w0", "wOther"],
        nextId := 3 },
    isLocalChange := false,
    remoteDecorations := [("bob", sampleDecoEntry)],
    participantCount := 2,
    clientId := "alice" }

/-- Witness for claim C6 at a concrete state: after bob leaves, his
table entry, decoration id and widget are all gone. -/
theorem participant_left_clears_decorations_witness :
    lookupKey ((handleWebSocketMessage sampleClientWithDeco
        (Frame.participantLeft "bob" 1)).1).remoteDecorations "bob"
      = none ∧
    "d0" ∉ ((handleWebSocketMessage sampleClientWithDeco
        (Frame.participantLeft "bob" 1)).1).editor.decosInEditor ∧
    "w0" ∉ ((handleWebSocketMessage sampleClientWithDeco
        (Frame.participantLeft "bob" 1)).1).editor.widgetsInEditor := by
  have h := participant_left_clears_decorations sampleClientWithDeco "bob" 1
  have he : lookupKey sampleClientWithDeco.remoteDecorations "bob"
      = some sampleDecoEntry := by rfl
  have h2 := h.2 sampleDecoEntry he
  exact ⟨h.1, h2.1 "d0" (by simp [sampleDecoEntry]), h2.2 "w0" rfl⟩
